import Mathlib

/-!
# robust_essential: two-view reconstruction driver

A shallow embedding of `src/openMVG_Samples/robust_essential/robust_essential.cpp`:
`readIntrinsic`, `exportToPly`, `triangulateAndSaveResult` and the control flow
of `main`.  The openMVG / Eigen / standard-library routines that the file calls
but does not define (`TriangulateDLT`, `PinholeCamera::Depth`,
`robustEssential`, stream extraction ...) enter as fields of records, so every
statement below holds for whatever those routines compute.
-/

set_option autoImplicit false

namespace RobustEssential

/-! ## Values -/

/-- A C++ `double` (or `float`) as the ordered comparisons see it: not-a-number,
an infinity, or a finite value, which is a rational number. -/
inductive Double where
  | nan : Double
  | negInf : Double
  | finite (q : ℚ) : Double
  | posInf : Double
deriving DecidableEq

namespace Double

/-- The literal `0` of `Depth(X) < 0`, converted to `double`. -/
def zero : Double := finite 0

/-- The result of `a < b` on doubles: false as soon as one side is NaN. -/
def lt : Double → Double → Bool
  | nan, _ => false
  | _, nan => false
  | negInf, negInf => false
  | negInf, _ => true
  | _, negInf => false
  | posInf, _ => false
  | finite _, posInf => true
  | finite a, finite b => decide (a < b)

/-- The result of `a <= b` on doubles: false as soon as one side is NaN. -/
def le : Double → Double → Bool
  | nan, _ => false
  | _, nan => false
  | negInf, _ => true
  | _, posInf => true
  | posInf, _ => false
  | finite _, negInf => false
  | finite a, finite b => decide (a ≤ b)

/-- The result of `a >= b` on doubles. -/
def ge (a b : Double) : Bool := le b a

/-- The result of `a > b` on doubles. -/
def gt (a b : Double) : Bool := lt b a

/-- Whether the value is a NaN. -/
def isNaN : Double → Bool
  | nan => true
  | _ => false

end Double

/-- Eigen `Vec2`. -/
structure Vec2 where
  x : Double
  y : Double
deriving DecidableEq

/-- Eigen `Vec3`. -/
structure Vec3 where
  x : Double
  y : Double
  z : Double
deriving DecidableEq

/-- The value of `Vec3::Zero()`. -/
def Vec3.Zero : Vec3 := ⟨Double.zero, Double.zero, Double.zero⟩

/-- Eigen `Mat3`, addressed as `K(j,i)`. -/
abbrev Mat3 := Fin 3 → Fin 3 → Double

/-- The value of `Mat3::Identity()`. -/
def Mat3.Identity : Mat3 := fun j i => if j = i then Double.finite 1 else Double.zero

/-- Eigen `Mat34`, the type of a projection matrix. -/
abbrev Mat34 := Fin 3 → Fin 4 → Double

/-- The dynamic matrix `Mat` as this file uses it: two rows, read and written
one column at a time through `col(k)`. -/
structure Mat where
  cols : Nat
  col : Nat → Vec2

/-- The four `float` statistics that `minMaxMeanMedian` writes. -/
structure Stats where
  dMin : Double
  dMax : Double
  dMean : Double
  dMedian : Double
deriving DecidableEq

/-- A `PinholeCamera` as the file uses it: the members `_P` and `_C` and the
methods `Depth` and `Residual`. -/
structure PinholeCamera where
  _P : Mat34
  _C : Vec3
  Depth : Vec3 → Double
  Residual : Vec3 → Vec2 → Double

/-- One thing sent to a text stream with `<<`. -/
inductive Item where
  | text (s : String) : Item
  | count (n : Nat) : Item
  | real (d : Double) : Item
  | mat3 (m : Mat3) : Item
  | vec3 (v : Vec3) : Item
  | endl : Item

/-- The numeric routines of openMVG and of the language that
`triangulateAndSaveResult` calls. -/
structure Numeric where
  /-- The call `TriangulateDLT(P1, x1, P2, x2, &X)`: the last argument is the value of
  `X` before the call, the result its value after. -/
  TriangulateDLT : Mat34 → Vec2 → Mat34 → Vec2 → Vec3 → Vec3
  /-- The sum `a + b` of two doubles. -/
  add : Double → Double → Double
  /-- The quotient `a / b` of two doubles. -/
  div : Double → Double → Double
  /-- The call `minMaxMeanMedian<float>(begin, end, dMin, dMax, dMean, dMedian)` on the
  range it is given. -/
  minMaxMeanMedian : List Double → Stats

/-! ## Loops -/

/-- The loop `for (size_t k = 0; k < v.size(); ++k) body(k, v[k])` over a
vector that the body does not resize. -/
def forIndex {α σ : Type} (v : List α) (body : Nat → α → σ → σ) (s : σ) : σ :=
  (List.finRange v.length).foldl (fun st k => body k.val (v.get k) st) s

/-! ## triangulateAndSaveResult -/

/-- The variables that the loop of `triangulateAndSaveResult` updates. -/
structure TriangulateState where
  vec_residuals : List Double
  nbPointWithNegativeDepth : Nat
  vec_3DPoints : List Vec3

/-- The point `X` after `TriangulateDLT(camL._P, xL_, camR._P, xR_, &X)` for the
correspondence of index `i` (lines 304-308). -/
def triangulatedPoint (N : Numeric) (camL camR : PinholeCamera) (xL xR : Mat)
    (i : Nat) : Vec3 :=
  N.TriangulateDLT camL._P (xL.col i) camR._P (xR.col i) Vec3.Zero

/-- The value `dResidual` for the correspondence of index `i` (line 311). -/
def pointResidual (N : Numeric) (camL camR : PinholeCamera) (xL xR : Mat)
    (i : Nat) : Double :=
  let X := triangulatedPoint N camL camR xL xR i
  N.div (N.add (camL.Residual X (xL.col i)) (camR.Residual X (xR.col i)))
    (Double.finite 2)

/-- One pass of the body of the loop of lines 303-319, for the inlier
`vec_inliers[k] = i`. -/
def triangulateStep (N : Numeric) (camL camR : PinholeCamera) (xL xR : Mat)
    (i : Nat) (st : TriangulateState) : TriangulateState :=
  let xL_ := xL.col i
  let xR_ := xR.col i
  let X := N.TriangulateDLT camL._P xL_ camR._P xR_ Vec3.Zero
  let dResidual :=
    N.div (N.add (camL.Residual X xL_) (camR.Residual X xR_)) (Double.finite 2)
  let st1 := { st with vec_residuals := st.vec_residuals ++ [dResidual] }
  if Double.lt (camL.Depth X) Double.zero && Double.lt (camR.Depth X) Double.zero then
    { st1 with nbPointWithNegativeDepth := st1.nbPointWithNegativeDepth + 1 }
  else
    { st1 with vec_3DPoints := st1.vec_3DPoints ++ [X] }

/-- What a call of `triangulateAndSaveResult` leaves behind: the vector
`vec_3DPoints` it was given by reference, the final values of its two local
accumulators, the range handed to `minMaxMeanMedian`, and what it sent to
`std::cout`. -/
structure TriangulateResult where
  vec_3DPoints : List Vec3
  vec_residuals : List Double
  nbPointWithNegativeDepth : Nat
  statsInput : List Double
  out : List Item

/-- The function `triangulateAndSaveResult` (lines 293-337). -/
def triangulateAndSaveResult (N : Numeric) (camL camR : PinholeCamera)
    (vec_inliers : List Nat) (xL xR : Mat) (vec_3DPoints : List Vec3) :
    TriangulateResult :=
  let st0 : TriangulateState :=
    { vec_residuals := [], nbPointWithNegativeDepth := 0, vec_3DPoints := vec_3DPoints }
  let st := forIndex vec_inliers (fun _ i s => triangulateStep N camL camR xL xR i s) st0
  let out1 : List Item :=
    if st.nbPointWithNegativeDepth > 0 then
      [Item.count st.nbPointWithNegativeDepth,
       Item.text " correspondence(s) with negative depth have been discarded.",
       Item.endl]
    else []
  let stats := N.minMaxMeanMedian st.vec_residuals
  let out2 : List Item :=
    [Item.endl,
     Item.text "Essential matrix estimation, residuals statistics:", Item.text "\n",
     Item.text "\t-- Residual min:\t", Item.real stats.dMin, Item.endl,
     Item.text "\t-- Residual median:\t", Item.real stats.dMedian, Item.endl,
     Item.text "\t-- Residual max:\t ", Item.real stats.dMax, Item.endl,
     Item.text "\t-- Residual mean:\t ", Item.real stats.dMean, Item.endl]
  { vec_3DPoints := st.vec_3DPoints
    vec_residuals := st.vec_residuals
    nbPointWithNegativeDepth := st.nbPointWithNegativeDepth
    statsInput := st.vec_residuals
    out := out1 ++ out2 }

/-- Whether the depth test of line 313 succeeds for the point `X`. -/
def bothNegative (camL camR : PinholeCamera) (X : Vec3) : Bool :=
  Double.lt (camL.Depth X) Double.zero && Double.lt (camR.Depth X) Double.zero

/-- The state of the loop of `triangulateAndSaveResult` once it has gone
through the given inliers from the given state. -/
def triangulateLoop (N : Numeric) (camL camR : PinholeCamera) (xL xR : Mat)
    (l : List Nat) (st : TriangulateState) : TriangulateState :=
  l.foldl (fun s i => triangulateStep N camL camR xL xR i s) st

/-! ## Text streams and files -/

/-- An input file stream that is open: the characters not yet read and the
`failbit` of the stream. -/
structure IStream where
  rest : List Char
  failbit : Bool
deriving DecidableEq

/-- The stream and file routines of the standard library and of Eigen that the
file calls. -/
structure Streams where
  /-- The call `in.open(fileName)` followed by `in.is_open()`: the open stream, or `none`
  when the file could not be opened. -/
  openIn : String → Option IStream
  /-- The extraction `in >> x` for a `double`: from the stream and the value of `x` before,
  the value of `x` after and the stream after. -/
  extract : IStream → Double → Double × IStream
  /-- The insertion `outfile << v.transpose()`: the characters Eigen prints for a row. -/
  formatRow : Vec3 → String
  /-- The answer of `outfile.good()` once the given text was sent to the file of the given
  name and flushed. -/
  good : String → String → Bool

/-! ## readIntrinsic -/

/-- The assignment `K(j,i) = v`. -/
def Mat3.set (K : Mat3) (j i : Fin 3) (v : Double) : Mat3 :=
  fun a b => if a = j ∧ b = i then v else K a b

/-- What a call of `readIntrinsic` leaves behind: the returned flag, the matrix
`K` it was given by reference, and what it sent to `std::cerr`. -/
structure ReadResult where
  ok : Bool
  K : Mat3
  err : List Item

/-- The two nested loops of lines 246-248, `in >> K(j,i)` nine times. -/
def readCoefficients (S : Streams) (strm : IStream) (K : Mat3) : Mat3 × IStream :=
  (List.finRange 3).foldl
    (fun st j =>
      (List.finRange 3).foldl
        (fun st1 i =>
          let r := S.extract st1.2 (st1.1 j i)
          (Mat3.set st1.1 j i r.1, r.2))
        st)
    (K, strm)

/-- The function `readIntrinsic` (lines 240-256). -/
def readIntrinsic (S : Streams) (fileName : String) (K : Mat3) : ReadResult :=
  match S.openIn fileName with
  | some strm =>
    { ok := true, K := (readCoefficients S strm K).1, err := [] }
  | none =>
    { ok := false, K := K,
      err := [Item.endl, Item.text "Invalid input K.txt file", Item.endl] }

/-! ## exportToPly -/

/-- What a call of `exportToPly` leaves behind: the characters it sent to
`outfile`, and the flag it returns. -/
structure PlyResult where
  text : String
  bOk : Bool
deriving DecidableEq

/-- The function `exportToPly` (lines 259-290).  A `size_t` is printed in
decimal; the sum of the two sizes does not wrap, a `std::vector<Vec3>` holding
far fewer than `2^63` elements. -/
def exportToPly (S : Streams) (vec_points vec_camPos : List Vec3)
    (sFileName : String) : PlyResult :=
  let outfile0 : String :=
    "" ++ "ply"
      ++ "\n" ++ "format ascii 1.0"
      ++ "\n" ++ "element vertex " ++ toString (vec_points.length + vec_camPos.length)
      ++ "\n" ++ "property float x"
      ++ "\n" ++ "property float y"
      ++ "\n" ++ "property float z"
      ++ "\n" ++ "property uchar red"
      ++ "\n" ++ "property uchar green"
      ++ "\n" ++ "property uchar blue"
      ++ "\n" ++ "end_header" ++ "\n"
  let outfile1 : String :=
    forIndex vec_points
      (fun _ p out => out ++ S.formatRow p ++ " 255 255 255" ++ "\n") outfile0
  let outfile2 : String :=
    forIndex vec_camPos
      (fun _ c out => out ++ S.formatRow c ++ " 0 255 0" ++ "\n") outfile1
  { text := outfile2, bOk := S.good sFileName outfile2 }

/-! ## main -/

/-- The constant `EXIT_SUCCESS` of `<cstdlib>`. -/
def EXIT_SUCCESS : Int := 0

/-- The constant `EXIT_FAILURE` of `<cstdlib>`, with the value it has on the
usual platforms; all that is used of it is that it differs from `EXIT_SUCCESS`. -/
def EXIT_FAILURE : Int := 1

/-- The conversion of a `bool` to the `int` that `main` returns. -/
def boolToInt (b : Bool) : Int := if b then 1 else 0

/-- An `IndMatch`: the indices `_i` and `_j` of the two matched features. -/
structure IndMatch where
  _i : Nat
  _j : Nat
deriving DecidableEq

/-- The functions whose calls a run records. -/
inductive Fn where
  | readIntrinsic : Fn
  | robustEssential : Fn
  | estimate_Rt_fromE : Fn
  | triangulateAndSaveResult : Fn
  | exportToPly : Fn
deriving DecidableEq

/-- What a run does that can be seen from outside, in order. -/
inductive Event where
  | cout (i : Item) : Event
  | cerr (i : Item) : Event
  | call (f : Fn) : Event
  | file (name : String) : Event

/-- Whether the event is something printed on `std::cout` or `std::cerr`. -/
def Event.isMessage : Event → Bool
  | Event.cout _ => true
  | Event.cerr _ => true
  | _ => false

/-- Whether the event is a call of the given function. -/
def Event.isCall (f : Fn) : Event → Bool
  | Event.call g => decide (g = f)
  | _ => false

/-- What `robustEssential` returns and writes through its pointers. -/
structure EssentialResult where
  found : Bool
  E : Mat3
  vec_inliers : List Nat
  thresholdE : Double
  NFA : Double

/-- What `estimate_Rt_fromE` returns and writes through its pointers. -/
structure PoseResult where
  ok : Bool
  R : Mat3
  t : Vec3

/-- Everything `main` takes from outside: the files, the images and their
features and matches as the describer and the matcher deliver them (lines
54-120), and the openMVG routines it calls. -/
structure Env where
  S : Streams
  N : Numeric
  /-- The value of `stlplus::folder_up(string(THIS_SOURCE_DIR)) + "/imageData/SceauxCastle/"`. -/
  sInputDir : String
  create_filespec : String → String → String → String
  imageL_Width : Nat
  imageL_Height : Nat
  imageR_Width : Nat
  imageR_Height : Nat
  /-- The value of `featsL[i].coords().cast<double>()`. -/
  featsL : Nat → Vec2
  /-- The value of `featsR[j].coords().cast<double>()`. -/
  featsR : Nat → Vec2
  /-- The vector `vec_PutativeMatches` after `getDeduplicated`. -/
  vec_PutativeMatches : List IndMatch
  /-- The content of `Mat3 K;` before anything is stored in it. -/
  K_fresh : Mat3
  /-- The content of a column of `Mat xL(2, n)` before anything is stored in it. -/
  col_fresh : Vec2
  robustEssential :
    Mat3 → Mat3 → Mat → Mat → Nat × Nat → Nat × Nat → Double → EssentialResult
  estimate_Rt_fromE : Mat3 → Mat3 → Mat → Mat → Mat3 → List Nat → PoseResult
  /-- The constructor `PinholeCamera(K, R, t)`. -/
  camera : Mat3 → Mat3 → Vec3 → PinholeCamera

/-- The assignment `M.col(k) = v`. -/
def Mat.setCol (M : Mat) (k : Nat) (v : Vec2) : Mat :=
  { M with col := fun c => if c = k then v else M.col c }

/-- What a run of `main` leaves behind: the exit code, the events in order, and
the value `exportToPly` returned when it was called. -/
structure Run where
  exitCode : Int
  trace : List Event
  plyOk : Option Bool

/-- The call `readIntrinsic(stlplus::create_filespec(sInputDir,"K","txt"), K)` of
line 144. -/
def readK (env : Env) : ReadResult :=
  readIntrinsic env.S (env.create_filespec env.sInputDir "K" "txt") env.K_fresh

/-- The matrix `xL` after the loop of lines 153-158. -/
def putativeL (env : Env) : Mat :=
  forIndex env.vec_PutativeMatches (fun k m M => M.setCol k (env.featsL m._i))
    { cols := env.vec_PutativeMatches.length, col := fun _ => env.col_fresh }

/-- The matrix `xR` after the loop of lines 153-158. -/
def putativeR (env : Env) : Mat :=
  forIndex env.vec_PutativeMatches (fun k m M => M.setCol k (env.featsR m._j))
    { cols := env.vec_PutativeMatches.length, col := fun _ => env.col_fresh }

/-- The call of `robustEssential` of lines 166-175. -/
def essential (env : Env) : EssentialResult :=
  env.robustEssential (readK env).K (readK env).K (putativeL env) (putativeR env)
    (env.imageL_Width, env.imageL_Height) (env.imageR_Width, env.imageR_Height)
    Double.posInf

/-- The call of `estimate_Rt_fromE` of lines 204-205. -/
def pose (env : Env) : PoseResult :=
  env.estimate_Rt_fromE (readK env).K (readK env).K (putativeL env) (putativeR env)
    (essential env).E (essential env).vec_inliers

/-- The function `main` (lines 52-238).  Lines 54-138 (reading the images,
describing and matching them, the three pictures written on the way) hold no
`return` and no call of a function of this file; of them the trace keeps the
three files written. -/
def main (env : Env) : Run :=
  let front : List Event :=
    [Event.file "01_concat.jpg", Event.file "02_features.jpg",
     Event.file "03_siftMatches.svg"]
  let rd := readK env
  let tr1 := front ++ [Event.call Fn.readIntrinsic] ++ rd.err.map Event.cerr
  if !rd.ok then
    { exitCode := EXIT_FAILURE
      trace := tr1 ++ [Event.cerr (Item.text "Cannot read intrinsic parameters."),
                       Event.cerr Item.endl]
      plyOk := none }
  else
    let K := rd.K
    let xL := putativeL env
    let xR := putativeR env
    let est := essential env
    let tr2 := tr1 ++ [Event.call Fn.robustEssential]
    if est.found then
      let vec_inliers := est.vec_inliers
      let tr3 := tr2 ++
        [Event.cout (Item.text
           "\nFound an Essential matrix under the confidence threshold of: "),
         Event.cout (Item.real est.thresholdE),
         Event.cout (Item.text " pixels\n\twith: "),
         Event.cout (Item.count vec_inliers.length),
         Event.cout (Item.text " inliers"),
         Event.cout (Item.text " from: "),
         Event.cout (Item.count env.vec_PutativeMatches.length),
         Event.cout (Item.text " putatives correspondences"),
         Event.cout Item.endl,
         Event.file "04_ACRansacEssential.svg",
         Event.call Fn.estimate_Rt_fromE]
      let rt := pose env
      if !rt.ok then
        { exitCode := boolToInt false
          trace := tr3 ++
            [Event.cerr (Item.text
               " /!\\ Failed to compute initial R|t for the initial pair"),
             Event.cerr Item.endl]
          plyOk := none }
      else
        let camL := env.camera K Mat3.Identity Vec3.Zero
        let camR := env.camera K rt.R rt.t
        let tri := triangulateAndSaveResult env.N camL camR vec_inliers xL xR []
        let vec_camPos := ([] ++ [camL._C]) ++ [camR._C]
        let ply := exportToPly env.S tri.vec_3DPoints vec_camPos "EssentialGeometry.ply"
        { exitCode := EXIT_SUCCESS
          trace := tr3 ++
            [Event.cout Item.endl,
             Event.cout (Item.text "-- Rotation|Translation matrices: --"),
             Event.cout Item.endl,
             Event.cout (Item.mat3 rt.R), Event.cout Item.endl, Event.cout Item.endl,
             Event.cout (Item.vec3 rt.t), Event.cout Item.endl,
             Event.call Fn.triangulateAndSaveResult]
            ++ tri.out.map Event.cout
            ++ [Event.call Fn.exportToPly]
          plyOk := some ply.bOk }
    else
      { exitCode := EXIT_SUCCESS
        trace := tr2 ++
          [Event.cout (Item.text
             "ACRANSAC was unable to estimate a rigid essential matrix"),
           Event.cout Item.endl]
        plyOk := none }

/-- Whether the run called the given function. -/
def Run.calls (r : Run) (f : Fn) : Bool := r.trace.any (Event.isCall f)

/-- What the run printed on `std::cout` and `std::cerr`, in order. -/
def Run.messages (r : Run) : List Event := r.trace.filter Event.isMessage

/-- The environment in which `outfile.good()` answers as `g` says and
everything else is as in `env`. -/
def Env.withGood (env : Env) (g : String → String → Bool) : Env :=
  { env with S := { env.S with good := g } }

/-! ## Concrete inputs -/

/-- A camera whose depth is the third coordinate of the point and whose
residual is zero, as for a camera at the origin looking along the z axis. -/
def camZ : PinholeCamera :=
  { _P := fun _ _ => Double.zero
    _C := Vec3.Zero
    Depth := fun X => X.z
    Residual := fun _ _ => Double.zero }

/-- Numeric routines for the concrete inputs: the triangulated point takes its
first two coordinates from the left observation and its third from the first
coordinate of the right one; sums and quotients are those of finite values. -/
def demoNumeric : Numeric :=
  { TriangulateDLT := fun _ x1 _ x2 _ => ⟨x1.x, x1.y, x2.x⟩
    add := fun a b =>
      match a, b with
      | Double.finite p, Double.finite q => Double.finite (p + q)
      | _, _ => Double.nan
    div := fun a b =>
      match a, b with
      | Double.finite p, Double.finite q => if q = 0 then Double.nan else Double.finite (p / q)
      | _, _ => Double.nan
    minMaxMeanMedian := fun l =>
      { dMin := l.headD Double.nan, dMax := l.headD Double.nan,
        dMean := l.headD Double.nan, dMedian := l.headD Double.nan } }

/-- A matrix all of whose columns are the given observation. -/
def constMat (v : Vec2) : Mat := { cols := 1, col := fun _ => v }

/-- Extraction of a `double` for the concrete inputs, on files whose numbers
are single digits: a stream already failed is left alone; otherwise blanks are
skipped and a digit is read, and anything else (or the end of the file) sets
the `failbit` and stores zero. -/
def demoExtract (s : IStream) (old : Double) : Double × IStream :=
  if s.failbit then (old, s)
  else
    match s.rest.dropWhile Char.isWhitespace with
    | [] => (Double.zero, { rest := [], failbit := true })
    | c :: rest =>
      if c.isDigit then (Double.finite (c.toNat - 48 : Nat), { rest := rest, failbit := false })
      else (Double.zero, { rest := c :: rest, failbit := true })

/-- A concrete environment: the content of `K.txt` when it can be opened,
whether `robustEssential` finds a model, whether `estimate_Rt_fromE` recovers
the pose, and whether the PLY file can be written. -/
def demoEnv (kFile : Option String) (found poseOk plyGood : Bool) : Env :=
  { S := { openIn := fun _ => kFile.map (fun c => { rest := c.toList, failbit := false })
           extract := demoExtract
           formatRow := fun _ => "0 0 0"
           good := fun _ _ => plyGood }
    N := demoNumeric
    sInputDir := "imageData/SceauxCastle/"
    create_filespec := fun dir base ext => dir ++ base ++ "." ++ ext
    imageL_Width := 4
    imageL_Height := 3
    imageR_Width := 4
    imageR_Height := 3
    featsL := fun _ => ⟨Double.zero, Double.zero⟩
    featsR := fun _ => ⟨Double.finite 1, Double.zero⟩
    vec_PutativeMatches := [⟨0, 0⟩]
    K_fresh := fun _ _ => Double.zero
    col_fresh := ⟨Double.zero, Double.zero⟩
    robustEssential := fun _ _ _ _ _ _ _ =>
      { found := found, E := Mat3.Identity, vec_inliers := if found then [0] else [],
        thresholdE := Double.finite 1, NFA := Double.finite (-1) }
    estimate_Rt_fromE := fun _ _ _ _ _ _ =>
      { ok := poseOk, R := Mat3.Identity, t := Vec3.Zero }
    camera := fun _ _ _ => camZ }

/-! ## Loop lemmas -/

theorem forIndex_eq_foldl {α σ : Type} (v : List α) (f : α → σ → σ) (s : σ) :
    forIndex v (fun _ a st => f a st) s = v.foldl (fun st a => f a st) s := by
  unfold forIndex
  have h := List.foldl_map (fun k : Fin v.length => v.get k) (fun st a => f a st)
    (List.finRange v.length) s
  rw [List.finRange_map_get] at h
  exact h.symm

theorem triangulateStep_eq (N : Numeric) (camL camR : PinholeCamera) (xL xR : Mat)
    (i : Nat) (st : TriangulateState) :
    triangulateStep N camL camR xL xR i st =
      if bothNegative camL camR (triangulatedPoint N camL camR xL xR i) then
        { vec_residuals := st.vec_residuals ++ [pointResidual N camL camR xL xR i]
          nbPointWithNegativeDepth := st.nbPointWithNegativeDepth + 1
          vec_3DPoints := st.vec_3DPoints }
      else
        { vec_residuals := st.vec_residuals ++ [pointResidual N camL camR xL xR i]
          nbPointWithNegativeDepth := st.nbPointWithNegativeDepth
          vec_3DPoints := st.vec_3DPoints ++ [triangulatedPoint N camL camR xL xR i] } := by
  simp only [triangulateStep, bothNegative, triangulatedPoint, pointResidual]

theorem triangulateLoop_spec (N : Numeric) (camL camR : PinholeCamera) (xL xR : Mat)
    (l : List Nat) (st : TriangulateState) :
    (triangulateLoop N camL camR xL xR l st).vec_residuals
        = st.vec_residuals ++ l.map (pointResidual N camL camR xL xR)
    ∧ (triangulateLoop N camL camR xL xR l st).nbPointWithNegativeDepth
        = st.nbPointWithNegativeDepth
          + ((l.map (triangulatedPoint N camL camR xL xR)).filter
              (fun X => bothNegative camL camR X)).length
    ∧ (triangulateLoop N camL camR xL xR l st).vec_3DPoints
        = st.vec_3DPoints
          ++ (l.map (triangulatedPoint N camL camR xL xR)).filter
              (fun X => !bothNegative camL camR X) := by
  induction l generalizing st with
  | nil => simp [triangulateLoop]
  | cons i l ih =>
    have hcons : triangulateLoop N camL camR xL xR (i :: l) st
        = triangulateLoop N camL camR xL xR l (triangulateStep N camL camR xL xR i st) := rfl
    rw [hcons]
    obtain ⟨h1, h2, h3⟩ := ih (triangulateStep N camL camR xL xR i st)
    rw [h1, h2, h3, triangulateStep_eq]
    by_cases hb : bothNegative camL camR (triangulatedPoint N camL camR xL xR i) = true
    · simp [hb, Nat.add_assoc, Nat.add_comm 1]
    · simp [hb]

theorem triangulateAndSaveResult_loop (N : Numeric) (camL camR : PinholeCamera)
    (vec_inliers : List Nat) (xL xR : Mat) (vec_3DPoints : List Vec3) :
    (triangulateAndSaveResult N camL camR vec_inliers xL xR vec_3DPoints).vec_3DPoints
        = (triangulateLoop N camL camR xL xR vec_inliers ⟨[], 0, vec_3DPoints⟩).vec_3DPoints
    ∧ (triangulateAndSaveResult N camL camR vec_inliers xL xR vec_3DPoints).nbPointWithNegativeDepth
        = (triangulateLoop N camL camR xL xR vec_inliers
            ⟨[], 0, vec_3DPoints⟩).nbPointWithNegativeDepth
    ∧ (triangulateAndSaveResult N camL camR vec_inliers xL xR vec_3DPoints).statsInput
        = (triangulateLoop N camL camR xL xR vec_inliers ⟨[], 0, vec_3DPoints⟩).vec_residuals
    ∧ (triangulateAndSaveResult N camL camR vec_inliers xL xR vec_3DPoints).vec_residuals
        = (triangulateLoop N camL camR xL xR vec_inliers ⟨[], 0, vec_3DPoints⟩).vec_residuals := by
  simp only [triangulateAndSaveResult, triangulateLoop, forIndex_eq_foldl, and_self]

theorem triangulateLoop_append (N : Numeric) (camL camR : PinholeCamera) (xL xR : Mat)
    (l : List Nat) (i : Nat) (st : TriangulateState) :
    triangulateLoop N camL camR xL xR (l ++ [i]) st
      = triangulateStep N camL camR xL xR i (triangulateLoop N camL camR xL xR l st) := by
  simp [triangulateLoop, List.foldl_append]

/-! ## Comparisons with zero -/

theorem Double.lt_zero_eq_false_iff_ge (d : Double) (h : d.isNaN = false) :
    Double.lt d Double.zero = false ↔ Double.ge d Double.zero = true := by
  cases d with
  | nan => simp [Double.isNaN] at h
  | negInf => simp [Double.lt, Double.ge, Double.le, Double.zero]
  | finite q => simp [Double.lt, Double.ge, Double.le, Double.zero]
  | posInf => simp [Double.lt, Double.ge, Double.le, Double.zero]

theorem Double.lt_zero_eq_false_of_gt (d : Double) (h : Double.gt d Double.zero = true) :
    Double.lt d Double.zero = false := by
  cases d with
  | nan => simp [Double.lt]
  | negInf => simp [Double.gt, Double.lt, Double.zero] at h
  | finite q =>
    simp only [Double.gt, Double.lt, Double.zero, decide_eq_true_eq] at h
    simp only [Double.lt, Double.zero, decide_eq_false_iff_not, not_lt]
    exact le_of_lt h
  | posInf => simp [Double.lt, Double.zero]

theorem filter_length_add {α : Type} (p : α → Bool) (l : List α) :
    (l.filter (fun a => !p a)).length + (l.filter p).length = l.length := by
  induction l with
  | nil => rfl
  | cons a l ih =>
    by_cases h : p a = true
    · simp [h]
      omega
    · simp [h]
      omega

/-! ## The depth filter -/

/-- C1 (amended): for every inlier list, pair of cameras and initial vector,
`triangulateAndSaveResult` appends a triangulated point exactly when the test
`camL.Depth(X) < 0 && camR.Depth(X) < 0` is false, and drops and counts it in
`nbPointWithNegativeDepth` exactly when both depths are strictly negative.  For
depths that are numbers (not NaN) the point is kept if and only if at least one
camera reports a depth `>= 0`.  A point behind both cameras is excluded and a
point in front of both is kept. -/
theorem C1_point_kept_unless_both_depths_negative (N : Numeric)
    (camL camR : PinholeCamera) (vec_inliers : List Nat) (xL xR : Mat)
    (vec_3DPoints : List Vec3) :
    (triangulateAndSaveResult N camL camR vec_inliers xL xR vec_3DPoints).vec_3DPoints
        = vec_3DPoints
          ++ (vec_inliers.map (triangulatedPoint N camL camR xL xR)).filter
              (fun X => !(Double.lt (camL.Depth X) Double.zero
                          && Double.lt (camR.Depth X) Double.zero))
    ∧ (triangulateAndSaveResult N camL camR vec_inliers xL xR
          vec_3DPoints).nbPointWithNegativeDepth
        = ((vec_inliers.map (triangulatedPoint N camL camR xL xR)).filter
              (fun X => Double.lt (camL.Depth X) Double.zero
                        && Double.lt (camR.Depth X) Double.zero)).length
    ∧ (∀ X : Vec3, (camL.Depth X).isNaN = false → (camR.Depth X).isNaN = false →
        ((Double.lt (camL.Depth X) Double.zero
            && Double.lt (camR.Depth X) Double.zero) = false
          ↔ (Double.ge (camL.Depth X) Double.zero = true
              ∨ Double.ge (camR.Depth X) Double.zero = true)))
    ∧ (∀ X : Vec3, Double.gt (camL.Depth X) Double.zero = true →
        Double.gt (camR.Depth X) Double.zero = true →
        (Double.lt (camL.Depth X) Double.zero
            && Double.lt (camR.Depth X) Double.zero) = false) := by
  obtain ⟨hp, hn, -, -⟩ := triangulateAndSaveResult_loop N camL camR vec_inliers xL xR vec_3DPoints
  obtain ⟨-, h2, h3⟩ := triangulateLoop_spec N camL camR xL xR vec_inliers ⟨[], 0, vec_3DPoints⟩
  refine ⟨?_, ?_, ?_, ?_⟩
  · rw [hp, h3]
    rfl
  · rw [hn, h2]
    simp [bothNegative]
  · intro X hL hR
    rw [Bool.and_eq_false_iff, Double.lt_zero_eq_false_iff_ge _ hL,
      Double.lt_zero_eq_false_iff_ge _ hR]
  · intro X hL _
    rw [Bool.and_eq_false_iff]
    exact Or.inl (Double.lt_zero_eq_false_of_gt _ hL)

/-- C1, at a concrete input: a point whose depth is `1` in both cameras. -/
theorem C1_point_kept_unless_both_depths_negative_witness :
    (camZ.Depth ⟨Double.zero, Double.zero, Double.finite 1⟩).isNaN = false
    ∧ ((Double.lt (camZ.Depth ⟨Double.zero, Double.zero, Double.finite 1⟩) Double.zero
          && Double.lt (camZ.Depth ⟨Double.zero, Double.zero, Double.finite 1⟩) Double.zero)
          = false
        ↔ (Double.ge (camZ.Depth ⟨Double.zero, Double.zero, Double.finite 1⟩) Double.zero = true
            ∨ Double.ge (camZ.Depth ⟨Double.zero, Double.zero, Double.finite 1⟩) Double.zero
                = true)) :=
  ⟨by decide,
   (C1_point_kept_unless_both_depths_negative demoNumeric camZ camZ [0]
      (constMat ⟨Double.zero, Double.zero⟩) (constMat ⟨Double.finite 1, Double.zero⟩) []).2.2.1
      ⟨Double.zero, Double.zero, Double.finite 1⟩ (by decide) (by decide)⟩

/-- C1 as stated fails: with a depth that is NaN in both cameras the point is
appended although neither camera reports a depth `>= 0`. -/
theorem C1_counterexample_nan_depth_kept :
    (⟨Double.zero, Double.zero, Double.nan⟩ : Vec3) ∈
        (triangulateAndSaveResult demoNumeric camZ camZ [0]
          (constMat ⟨Double.zero, Double.zero⟩) (constMat ⟨Double.nan, Double.zero⟩)
          []).vec_3DPoints
    ∧ triangulatedPoint demoNumeric camZ camZ (constMat ⟨Double.zero, Double.zero⟩)
          (constMat ⟨Double.nan, Double.zero⟩) 0 = ⟨Double.zero, Double.zero, Double.nan⟩
    ∧ ¬ (Double.ge (camZ.Depth ⟨Double.zero, Double.zero, Double.nan⟩) Double.zero = true
          ∨ Double.ge (camZ.Depth ⟨Double.zero, Double.zero, Double.nan⟩) Double.zero = true) := by
  decide

/-- C7 (amended): in `triangulateAndSaveResult`, after any earlier inliers
`pre`, the pass for an inlier `i` drops the triangulated point and counts it as
discarded when its depth is strictly negative in both cameras; when the depth is
non-positive in both cameras without being strictly negative in both (so also
when it is exactly zero in both) the point is appended and not counted. -/
theorem C7_strictly_negative_in_both_dropped (N : Numeric)
    (camL camR : PinholeCamera) (pre : List Nat) (i : Nat) (xL xR : Mat)
    (vec_3DPoints : List Vec3) :
    (Double.lt (camL.Depth (triangulatedPoint N camL camR xL xR i)) Double.zero = true
      ∧ Double.lt (camR.Depth (triangulatedPoint N camL camR xL xR i)) Double.zero = true →
      (triangulateAndSaveResult N camL camR (pre ++ [i]) xL xR vec_3DPoints).vec_3DPoints
          = (triangulateAndSaveResult N camL camR pre xL xR vec_3DPoints).vec_3DPoints
        ∧ (triangulateAndSaveResult N camL camR (pre ++ [i]) xL xR
            vec_3DPoints).nbPointWithNegativeDepth
          = (triangulateAndSaveResult N camL camR pre xL xR
              vec_3DPoints).nbPointWithNegativeDepth + 1)
    ∧ (Double.le (camL.Depth (triangulatedPoint N camL camR xL xR i)) Double.zero = true
      ∧ Double.le (camR.Depth (triangulatedPoint N camL camR xL xR i)) Double.zero = true
      ∧ (Double.lt (camL.Depth (triangulatedPoint N camL camR xL xR i)) Double.zero = false
          ∨ Double.lt (camR.Depth (triangulatedPoint N camL camR xL xR i)) Double.zero = false) →
      (triangulateAndSaveResult N camL camR (pre ++ [i]) xL xR vec_3DPoints).vec_3DPoints
          = (triangulateAndSaveResult N camL camR pre xL xR vec_3DPoints).vec_3DPoints
            ++ [triangulatedPoint N camL camR xL xR i]
        ∧ (triangulateAndSaveResult N camL camR (pre ++ [i]) xL xR
            vec_3DPoints).nbPointWithNegativeDepth
          = (triangulateAndSaveResult N camL camR pre xL xR
              vec_3DPoints).nbPointWithNegativeDepth)
    ∧ (camL.Depth (triangulatedPoint N camL camR xL xR i) = Double.zero
      ∧ camR.Depth (triangulatedPoint N camL camR xL xR i) = Double.zero →
      (triangulateAndSaveResult N camL camR (pre ++ [i]) xL xR vec_3DPoints).vec_3DPoints
          = (triangulateAndSaveResult N camL camR pre xL xR vec_3DPoints).vec_3DPoints
            ++ [triangulatedPoint N camL camR xL xR i]
        ∧ (triangulateAndSaveResult N camL camR (pre ++ [i]) xL xR
            vec_3DPoints).nbPointWithNegativeDepth
          = (triangulateAndSaveResult N camL camR pre xL xR
              vec_3DPoints).nbPointWithNegativeDepth) := by
  obtain ⟨hp, hn, -, -⟩ :=
    triangulateAndSaveResult_loop N camL camR (pre ++ [i]) xL xR vec_3DPoints
  obtain ⟨hp0, hn0, -, -⟩ := triangulateAndSaveResult_loop N camL camR pre xL xR vec_3DPoints
  rw [hp, hn, hp0, hn0, triangulateLoop_append, triangulateStep_eq]
  have keep : ∀ h : bothNegative camL camR (triangulatedPoint N camL camR xL xR i) = false,
      (if bothNegative camL camR (triangulatedPoint N camL camR xL xR i) = true then
          ({ vec_residuals := (triangulateLoop N camL camR xL xR pre
                ⟨[], 0, vec_3DPoints⟩).vec_residuals ++ [pointResidual N camL camR xL xR i]
             nbPointWithNegativeDepth := (triangulateLoop N camL camR xL xR pre
                ⟨[], 0, vec_3DPoints⟩).nbPointWithNegativeDepth + 1
             vec_3DPoints := (triangulateLoop N camL camR xL xR pre
                ⟨[], 0, vec_3DPoints⟩).vec_3DPoints } : TriangulateState)
        else
          { vec_residuals := (triangulateLoop N camL camR xL xR pre
                ⟨[], 0, vec_3DPoints⟩).vec_residuals ++ [pointResidual N camL camR xL xR i]
            nbPointWithNegativeDepth := (triangulateLoop N camL camR xL xR pre
                ⟨[], 0, vec_3DPoints⟩).nbPointWithNegativeDepth
            vec_3DPoints := (triangulateLoop N camL camR xL xR pre
                ⟨[], 0, vec_3DPoints⟩).vec_3DPoints
              ++ [triangulatedPoint N camL camR xL xR i] })
        = { vec_residuals := (triangulateLoop N camL camR xL xR pre
                ⟨[], 0, vec_3DPoints⟩).vec_residuals ++ [pointResidual N camL camR xL xR i]
            nbPointWithNegativeDepth := (triangulateLoop N camL camR xL xR pre
                ⟨[], 0, vec_3DPoints⟩).nbPointWithNegativeDepth
            vec_3DPoints := (triangulateLoop N camL camR xL xR pre
                ⟨[], 0, vec_3DPoints⟩).vec_3DPoints
              ++ [triangulatedPoint N camL camR xL xR i] } := by
    intro h
    simp [h]
  refine ⟨?_, ?_, ?_⟩
  · rintro ⟨hL, hR⟩
    have hb : bothNegative camL camR (triangulatedPoint N camL camR xL xR i) = true := by
      simp [bothNegative, hL, hR]
    simp [hb]
  · rintro ⟨-, -, hlt⟩
    have hb : bothNegative camL camR (triangulatedPoint N camL camR xL xR i) = false := by
      unfold bothNegative
      rw [Bool.and_eq_false_iff]
      exact hlt
    rw [keep hb]
    exact ⟨rfl, rfl⟩
  · rintro ⟨hL, -⟩
    have hb : bothNegative camL camR (triangulatedPoint N camL camR xL xR i) = false := by
      simp [bothNegative, hL, Double.lt, Double.zero]
    rw [keep hb]
    exact ⟨rfl, rfl⟩

/-- C7, at concrete inputs: a point whose depth is `-1` in both cameras is
dropped and counted; a point whose depth is `0` in both is appended. -/
theorem C7_strictly_negative_in_both_dropped_witness :
    ((triangulateAndSaveResult demoNumeric camZ camZ ([] ++ [0])
        (constMat ⟨Double.zero, Double.zero⟩) (constMat ⟨Double.finite (-1), Double.zero⟩)
        []).vec_3DPoints
      = (triangulateAndSaveResult demoNumeric camZ camZ []
          (constMat ⟨Double.zero, Double.zero⟩) (constMat ⟨Double.finite (-1), Double.zero⟩)
          []).vec_3DPoints
    ∧ (triangulateAndSaveResult demoNumeric camZ camZ ([] ++ [0])
        (constMat ⟨Double.zero, Double.zero⟩) (constMat ⟨Double.finite (-1), Double.zero⟩)
        []).nbPointWithNegativeDepth
      = (triangulateAndSaveResult demoNumeric camZ camZ []
          (constMat ⟨Double.zero, Double.zero⟩) (constMat ⟨Double.finite (-1), Double.zero⟩)
          []).nbPointWithNegativeDepth + 1)
    ∧ ((triangulateAndSaveResult demoNumeric camZ camZ ([] ++ [0])
        (constMat ⟨Double.zero, Double.zero⟩) (constMat ⟨Double.zero, Double.zero⟩)
        []).vec_3DPoints
      = (triangulateAndSaveResult demoNumeric camZ camZ []
          (constMat ⟨Double.zero, Double.zero⟩) (constMat ⟨Double.zero, Double.zero⟩)
          []).vec_3DPoints
        ++ [triangulatedPoint demoNumeric camZ camZ (constMat ⟨Double.zero, Double.zero⟩)
              (constMat ⟨Double.zero, Double.zero⟩) 0]
    ∧ (triangulateAndSaveResult demoNumeric camZ camZ ([] ++ [0])
        (constMat ⟨Double.zero, Double.zero⟩) (constMat ⟨Double.zero, Double.zero⟩)
        []).nbPointWithNegativeDepth
      = (triangulateAndSaveResult demoNumeric camZ camZ []
          (constMat ⟨Double.zero, Double.zero⟩) (constMat ⟨Double.zero, Double.zero⟩)
          []).nbPointWithNegativeDepth) :=
  ⟨(C7_strictly_negative_in_both_dropped demoNumeric camZ camZ [] 0
      (constMat ⟨Double.zero, Double.zero⟩) (constMat ⟨Double.finite (-1), Double.zero⟩) []).1
      ⟨by decide, by decide⟩,
   (C7_strictly_negative_in_both_dropped demoNumeric camZ camZ [] 0
      (constMat ⟨Double.zero, Double.zero⟩) (constMat ⟨Double.zero, Double.zero⟩) []).2.2
      ⟨rfl, rfl⟩⟩

/-- C7 as stated fails: a point whose depth is exactly zero in both cameras has
non-positive depth in both, and is appended and not counted as discarded. -/
theorem C7_counterexample_zero_depth_kept :
    Double.le (camZ.Depth (triangulatedPoint demoNumeric camZ camZ
        (constMat ⟨Double.zero, Double.zero⟩) (constMat ⟨Double.zero, Double.zero⟩) 0))
        Double.zero = true
    ∧ (triangulateAndSaveResult demoNumeric camZ camZ [0]
        (constMat ⟨Double.zero, Double.zero⟩) (constMat ⟨Double.zero, Double.zero⟩)
        []).vec_3DPoints = [⟨Double.zero, Double.zero, Double.zero⟩]
    ∧ (triangulateAndSaveResult demoNumeric camZ camZ [0]
        (constMat ⟨Double.zero, Double.zero⟩) (constMat ⟨Double.zero, Double.zero⟩)
        []).nbPointWithNegativeDepth = 0 := by
  decide

/-! ## The residuals -/

/-- C2 (amended): in `triangulateAndSaveResult` the range handed to
`minMaxMeanMedian` holds exactly one residual per inlier, in inlier order,
whether the point was appended or dropped by the depth filter: its length is the
number of appended points plus the number of dropped ones, and the four
statistics printed are those of that range. -/
theorem C2_statistics_over_all_inliers (N : Numeric)
    (camL camR : PinholeCamera) (vec_inliers : List Nat) (xL xR : Mat)
    (vec_3DPoints : List Vec3) :
    (triangulateAndSaveResult N camL camR vec_inliers xL xR vec_3DPoints).statsInput
        = vec_inliers.map (pointResidual N camL camR xL xR)
    ∧ (triangulateAndSaveResult N camL camR vec_inliers xL xR vec_3DPoints).statsInput.length
        = ((triangulateAndSaveResult N camL camR vec_inliers xL xR
              vec_3DPoints).vec_3DPoints.length - vec_3DPoints.length)
          + (triangulateAndSaveResult N camL camR vec_inliers xL xR
              vec_3DPoints).nbPointWithNegativeDepth
    ∧ Item.real (N.minMaxMeanMedian
          (vec_inliers.map (pointResidual N camL camR xL xR))).dMin
        ∈ (triangulateAndSaveResult N camL camR vec_inliers xL xR vec_3DPoints).out
    ∧ Item.real (N.minMaxMeanMedian
          (vec_inliers.map (pointResidual N camL camR xL xR))).dMax
        ∈ (triangulateAndSaveResult N camL camR vec_inliers xL xR vec_3DPoints).out
    ∧ Item.real (N.minMaxMeanMedian
          (vec_inliers.map (pointResidual N camL camR xL xR))).dMean
        ∈ (triangulateAndSaveResult N camL camR vec_inliers xL xR vec_3DPoints).out
    ∧ Item.real (N.minMaxMeanMedian
          (vec_inliers.map (pointResidual N camL camR xL xR))).dMedian
        ∈ (triangulateAndSaveResult N camL camR vec_inliers xL xR vec_3DPoints).out := by
  obtain ⟨hp, hn, hs, -⟩ := triangulateAndSaveResult_loop N camL camR vec_inliers xL xR vec_3DPoints
  obtain ⟨h1, h2, h3⟩ := triangulateLoop_spec N camL camR xL xR vec_inliers ⟨[], 0, vec_3DPoints⟩
  have hres : (triangulateLoop N camL camR xL xR vec_inliers ⟨[], 0, vec_3DPoints⟩).vec_residuals
      = vec_inliers.map (pointResidual N camL camR xL xR) := by
    rw [h1]
    rfl
  have hout : ∀ it : Item,
      it ∈ [Item.real (N.minMaxMeanMedian
              (vec_inliers.map (pointResidual N camL camR xL xR))).dMin,
            Item.real (N.minMaxMeanMedian
              (vec_inliers.map (pointResidual N camL camR xL xR))).dMax,
            Item.real (N.minMaxMeanMedian
              (vec_inliers.map (pointResidual N camL camR xL xR))).dMean,
            Item.real (N.minMaxMeanMedian
              (vec_inliers.map (pointResidual N camL camR xL xR))).dMedian] →
      it ∈ (triangulateAndSaveResult N camL camR vec_inliers xL xR vec_3DPoints).out := by
    intro it hit
    have hfold : forIndex vec_inliers
        (fun _ i s => triangulateStep N camL camR xL xR i s) ⟨[], 0, vec_3DPoints⟩
        = triangulateLoop N camL camR xL xR vec_inliers ⟨[], 0, vec_3DPoints⟩ :=
      forIndex_eq_foldl vec_inliers (fun i s => triangulateStep N camL camR xL xR i s) _
    simp only [triangulateAndSaveResult, hfold, hres]
    simp only [List.mem_cons, List.mem_singleton, List.not_mem_nil, or_false] at hit
    rcases hit with h | h | h | h <;> subst h <;> simp
  refine ⟨?_, ?_, hout _ (by simp), hout _ (by simp), hout _ (by simp), hout _ (by simp)⟩
  · rw [hs, hres]
  · rw [hs, hres, hp, hn, h2, h3]
    have hsplit := filter_length_add (fun X => bothNegative camL camR X)
      (vec_inliers.map (triangulatedPoint N camL camR xL xR))
    simp only [List.length_append, List.length_map, Nat.zero_add] at hsplit ⊢
    omega

/-- C2 as stated fails: for one inlier whose point is behind both cameras the
point is dropped, nothing is appended, and its residual is still in the range
handed to `minMaxMeanMedian`. -/
theorem C2_counterexample_dropped_point_residual_counted :
    (triangulateAndSaveResult demoNumeric camZ camZ [0]
        (constMat ⟨Double.zero, Double.zero⟩) (constMat ⟨Double.finite (-1), Double.zero⟩)
        []).vec_3DPoints = []
    ∧ (triangulateAndSaveResult demoNumeric camZ camZ [0]
        (constMat ⟨Double.zero, Double.zero⟩) (constMat ⟨Double.finite (-1), Double.zero⟩)
        []).nbPointWithNegativeDepth = 1
    ∧ (triangulateAndSaveResult demoNumeric camZ camZ [0]
        (constMat ⟨Double.zero, Double.zero⟩) (constMat ⟨Double.finite (-1), Double.zero⟩)
        []).statsInput
      = [pointResidual demoNumeric camZ camZ (constMat ⟨Double.zero, Double.zero⟩)
          (constMat ⟨Double.finite (-1), Double.zero⟩) 0] :=
  ⟨by decide, by decide, rfl⟩

/-! ## The frame of triangulateAndSaveResult -/

/-- C10: `triangulateAndSaveResult` only appends to `vec_3DPoints`: the final
vector is the initial one followed by the kept triangulated points in inlier
order, a subsequence of the per-inlier triangulations; its length is the initial
length plus the number of inliers minus `nbPointWithNegativeDepth`, and kept
plus dropped is the number of inliers. -/
theorem C10_only_appends_kept_points (N : Numeric)
    (camL camR : PinholeCamera) (vec_inliers : List Nat) (xL xR : Mat)
    (vec_3DPoints : List Vec3) :
    ∃ kept : List Vec3,
      (triangulateAndSaveResult N camL camR vec_inliers xL xR vec_3DPoints).vec_3DPoints
          = vec_3DPoints ++ kept
      ∧ kept = (vec_inliers.map (triangulatedPoint N camL camR xL xR)).filter
          (fun X => !(Double.lt (camL.Depth X) Double.zero
                      && Double.lt (camR.Depth X) Double.zero))
      ∧ List.Sublist kept (vec_inliers.map (triangulatedPoint N camL camR xL xR))
      ∧ kept.length + (triangulateAndSaveResult N camL camR vec_inliers xL xR
            vec_3DPoints).nbPointWithNegativeDepth = vec_inliers.length
      ∧ (triangulateAndSaveResult N camL camR vec_inliers xL xR vec_3DPoints).vec_3DPoints.length
          = vec_3DPoints.length + vec_inliers.length
            - (triangulateAndSaveResult N camL camR vec_inliers xL xR
                vec_3DPoints).nbPointWithNegativeDepth := by
  obtain ⟨hp, hn, -, -⟩ := triangulateAndSaveResult_loop N camL camR vec_inliers xL xR vec_3DPoints
  obtain ⟨-, h2, h3⟩ := triangulateLoop_spec N camL camR xL xR vec_inliers ⟨[], 0, vec_3DPoints⟩
  have hsplit := filter_length_add (fun X => bothNegative camL camR X)
    (vec_inliers.map (triangulatedPoint N camL camR xL xR))
  rw [List.length_map] at hsplit
  refine ⟨(vec_inliers.map (triangulatedPoint N camL camR xL xR)).filter
      (fun X => !bothNegative camL camR X), ?_, rfl, List.filter_sublist _, ?_, ?_⟩
  · rw [hp, h3]
  · rw [hn, h2]
    simpa using hsplit
  · rw [hp, hn, h2, h3]
    simp only [List.length_append, Nat.zero_add]
    omega

/-! ## The PLY text -/

theorem foldl_append_eq_join {α : Type} (f : α → String) (l : List α) (init : String) :
    l.foldl (fun out a => out ++ f a) init = init ++ String.join (l.map f) := by
  induction l generalizing init with
  | nil => simp [String.join]
  | cons a l ih =>
    rw [List.foldl_cons, ih]
    apply String.ext
    simp [String.data_append, String.data_join, List.append_assoc]

theorem join_append (a b : List String) :
    String.join (a ++ b) = String.join a ++ String.join b := by
  apply String.ext
  simp [String.data_append, String.data_join]

/-- C8: for every `vec_points` and `vec_camPos`, the text `exportToPly` writes
is the PLY header, whose `element vertex` line gives the count
`vec_points.size() + vec_camPos.size()`, followed after `end_header` by exactly
that many vertex lines: one per 3D point in input order, each ending with
` 255 255 255`, then one per camera position in input order, each ending with
` 0 255 0`. -/
theorem C8_ply_header_count_and_vertex_lines (S : Streams)
    (vec_points vec_camPos : List Vec3) (sFileName : String) :
    ∃ lines : List String,
      (exportToPly S vec_points vec_camPos sFileName).text
        = "ply\nformat ascii 1.0\nelement vertex "
          ++ toString (vec_points.length + vec_camPos.length)
          ++ "\nproperty float x\nproperty float y\nproperty float z\nproperty uchar red\nproperty uchar green\nproperty uchar blue\nend_header\n"
          ++ String.join lines
      ∧ lines = vec_points.map (fun p => S.formatRow p ++ " 255 255 255" ++ "\n")
                ++ vec_camPos.map (fun c => S.formatRow c ++ " 0 255 0" ++ "\n")
      ∧ lines.length = vec_points.length + vec_camPos.length := by
  refine ⟨_, ?_, rfl, by simp⟩
  have hpts : ∀ out : String,
      forIndex vec_points (fun _ p out => out ++ S.formatRow p ++ " 255 255 255" ++ "\n") out
        = out ++ String.join
            (vec_points.map (fun p => S.formatRow p ++ " 255 255 255" ++ "\n")) := by
    intro out
    rw [forIndex_eq_foldl vec_points
      (fun p out => out ++ S.formatRow p ++ " 255 255 255" ++ "\n") out]
    rw [← foldl_append_eq_join]
    simp only [String.append_assoc]
  have hcam : ∀ out : String,
      forIndex vec_camPos (fun _ c out => out ++ S.formatRow c ++ " 0 255 0" ++ "\n") out
        = out ++ String.join
            (vec_camPos.map (fun c => S.formatRow c ++ " 0 255 0" ++ "\n")) := by
    intro out
    rw [forIndex_eq_foldl vec_camPos
      (fun c out => out ++ S.formatRow c ++ " 0 255 0" ++ "\n") out]
    rw [← foldl_append_eq_join]
    simp only [String.append_assoc]
  simp only [exportToPly, hpts, hcam, join_append]
  apply String.ext
  simp [String.data_append]

/-! ## readIntrinsic and the exits of main -/

theorem readIntrinsic_ok_iff (S : Streams) (fileName : String) (K : Mat3) :
    (readIntrinsic S fileName K).ok = (S.openIn fileName).isSome := by
  unfold readIntrinsic
  cases S.openIn fileName <;> rfl

theorem main_of_read_failure (env : Env) (h : (readK env).ok = false) :
    main env =
      { exitCode := EXIT_FAILURE
        trace := [Event.file "01_concat.jpg", Event.file "02_features.jpg",
                  Event.file "03_siftMatches.svg", Event.call Fn.readIntrinsic]
                 ++ (readK env).err.map Event.cerr
                 ++ [Event.cerr (Item.text "Cannot read intrinsic parameters."),
                     Event.cerr Item.endl]
        plyOk := none } := by
  simp [main, h]

theorem main_of_no_model (env : Env) (h : (readK env).ok = true)
    (hno : (essential env).found = false) :
    main env =
      { exitCode := EXIT_SUCCESS
        trace := [Event.file "01_concat.jpg", Event.file "02_features.jpg",
                  Event.file "03_siftMatches.svg", Event.call Fn.readIntrinsic]
                 ++ (readK env).err.map Event.cerr
                 ++ [Event.call Fn.robustEssential,
                     Event.cout (Item.text
                       "ACRANSAC was unable to estimate a rigid essential matrix"),
                     Event.cout Item.endl]
        plyOk := none } := by
  simp [main, h, hno]

theorem main_exitCode_of_pose_failure (env : Env) (h : (readK env).ok = true)
    (hfound : (essential env).found = true) (hpose : (pose env).ok = false) :
    (main env).exitCode = 0 := by
  simp [main, h, hfound, hpose, boolToInt]

theorem main_calls_robustEssential (env : Env) (h : (readK env).ok = true) :
    (main env).calls Fn.robustEssential = true := by
  unfold Run.calls main
  simp only [h, Bool.not_true, Bool.false_eq_true, if_false]
  by_cases hf : (essential env).found = true
  · by_cases hp : (pose env).ok = true
    · simp [hf, hp, Event.isCall]
    · simp [hf, hp, Event.isCall]
  · simp [hf, Event.isCall]

theorem main_independent_of_good (env : Env) (g : String → String → Bool) :
    (main (env.withGood g)).trace = (main env).trace
    ∧ (main (env.withGood g)).exitCode = (main env).exitCode := by
  have h1 : readK (env.withGood g) = readK env := rfl
  have h2 : essential (env.withGood g) = essential env := rfl
  have h3 : pose (env.withGood g) = pose env := rfl
  have h4 : putativeL (env.withGood g) = putativeL env := rfl
  have h5 : putativeR (env.withGood g) = putativeR env := rfl
  simp only [main, h1, h2, h3, h4, h5]
  split_ifs <;> exact ⟨rfl, rfl⟩

/-- C5: when the intrinsic file cannot be opened, `readIntrinsic` returns false
and leaves `K` as it was, and `main` ends with `EXIT_FAILURE` without calling
`robustEssential`, `estimate_Rt_fromE`, `triangulateAndSaveResult` or
`exportToPly`; and `readIntrinsic` returns false only when the file could not be
opened. -/
theorem C5_unopened_intrinsic_file_aborts (env : Env) (K : Mat3)
    (h : env.S.openIn (env.create_filespec env.sInputDir "K" "txt") = none) :
    (readIntrinsic env.S (env.create_filespec env.sInputDir "K" "txt") K).ok = false
    ∧ (readIntrinsic env.S (env.create_filespec env.sInputDir "K" "txt") K).K = K
    ∧ (main env).exitCode = EXIT_FAILURE
    ∧ EXIT_FAILURE ≠ EXIT_SUCCESS
    ∧ (main env).calls Fn.robustEssential = false
    ∧ (main env).calls Fn.estimate_Rt_fromE = false
    ∧ (main env).calls Fn.triangulateAndSaveResult = false
    ∧ (main env).calls Fn.exportToPly = false
    ∧ (∀ (S : Streams) (fileName : String) (K0 : Mat3),
        (readIntrinsic S fileName K0).ok = false → S.openIn fileName = none) := by
  have hrd : (readK env).ok = false := by
    rw [readK, readIntrinsic_ok_iff, h]
    rfl
  have herr : (readK env).err
      = [Item.endl, Item.text "Invalid input K.txt file", Item.endl] := by
    simp [readK, readIntrinsic, h]
  refine ⟨?_, ?_, ?_, by decide, ?_, ?_, ?_, ?_, ?_⟩
  · rw [readIntrinsic_ok_iff, h]
    rfl
  · simp [readIntrinsic, h]
  · rw [main_of_read_failure env hrd]
  · rw [main_of_read_failure env hrd, herr]
    rfl
  · rw [main_of_read_failure env hrd, herr]
    rfl
  · rw [main_of_read_failure env hrd, herr]
    rfl
  · rw [main_of_read_failure env hrd, herr]
    rfl
  · intro S fileName K0 hfalse
    rw [readIntrinsic_ok_iff] at hfalse
    cases hopen : S.openIn fileName with
    | none => rfl
    | some strm => simp [hopen] at hfalse

/-- C5, at a concrete input: no `K.txt` to open. -/
theorem C5_unopened_intrinsic_file_aborts_witness :
    (main (demoEnv none true true true)).exitCode = EXIT_FAILURE
    ∧ (main (demoEnv none true true true)).calls Fn.robustEssential = false :=
  ⟨(C5_unopened_intrinsic_file_aborts (demoEnv none true true true)
      (fun _ _ => Double.zero) rfl).2.2.1,
   (C5_unopened_intrinsic_file_aborts (demoEnv none true true true)
      (fun _ _ => Double.zero) rfl).2.2.2.2.1⟩

/-- C6: when the intrinsic file is read and `robustEssential` returns false,
`main` recovers no pose, triangulates nothing and exports no PLY, says so on
standard output, and ends with `EXIT_SUCCESS`. -/
theorem C6_no_model_is_a_successful_run (env : Env) (hread : (readK env).ok = true)
    (hno : (essential env).found = false) :
    (main env).calls Fn.estimate_Rt_fromE = false
    ∧ (main env).calls Fn.triangulateAndSaveResult = false
    ∧ (main env).calls Fn.exportToPly = false
    ∧ (main env).plyOk = none
    ∧ Event.cout (Item.text "ACRANSAC was unable to estimate a rigid essential matrix")
        ∈ (main env).trace
    ∧ (main env).exitCode = EXIT_SUCCESS := by
  have herr : (readK env).err = [] := by
    have hopen := readIntrinsic_ok_iff env.S
      (env.create_filespec env.sInputDir "K" "txt") env.K_fresh
    unfold readK at hread ⊢
    rw [hread] at hopen
    unfold readIntrinsic
    cases hk : env.S.openIn (env.create_filespec env.sInputDir "K" "txt") with
    | none => simp [hk] at hopen
    | some strm => rfl
  rw [main_of_no_model env hread hno, herr]
  refine ⟨rfl, rfl, rfl, rfl, ?_, rfl⟩
  simp

/-- C6, at a concrete input: a readable `K.txt` and no model found. -/
theorem C6_no_model_is_a_successful_run_witness :
    (main (demoEnv (some "1 0 2 0 1 3 0 0 1") false true true)).exitCode = EXIT_SUCCESS
    ∧ (main (demoEnv (some "1 0 2 0 1 3 0 0 1") false true true)).calls Fn.exportToPly
        = false :=
  ⟨(C6_no_model_is_a_successful_run (demoEnv (some "1 0 2 0 1 3 0 0 1") false true true)
      (by decide) (by decide)).2.2.2.2.2,
   (C6_no_model_is_a_successful_run (demoEnv (some "1 0 2 0 1 3 0 0 1") false true true)
      (by decide) (by decide)).2.2.1⟩

/-- C4 (amended): for every intrinsic file that can be opened, whatever its
content, `readIntrinsic` returns true and prints nothing, and `main` does not
stop on it: it prints no `Cannot read intrinsic parameters.` and goes on to call
`robustEssential`. -/
theorem C4_opened_intrinsic_file_is_accepted (env : Env) (K : Mat3) (strm : IStream)
    (h : env.S.openIn (env.create_filespec env.sInputDir "K" "txt") = some strm) :
    (readIntrinsic env.S (env.create_filespec env.sInputDir "K" "txt") K).ok = true
    ∧ (readIntrinsic env.S (env.create_filespec env.sInputDir "K" "txt") K).err = []
    ∧ (main env).calls Fn.robustEssential = true
    ∧ Event.cerr (Item.text "Cannot read intrinsic parameters.") ∉ (main env).trace := by
  have hrd : (readK env).ok = true := by
    rw [readK, readIntrinsic_ok_iff, h]
    rfl
  have herr : (readK env).err = [] := by
    simp [readK, readIntrinsic, h]
  refine ⟨?_, ?_, main_calls_robustEssential env hrd, ?_⟩
  · rw [readIntrinsic_ok_iff, h]
    rfl
  · simp [readIntrinsic, h]
  · unfold main
    simp only [hrd, herr, Bool.not_true, Bool.false_eq_true, if_false]
    by_cases hf : (essential env).found = true
    · by_cases hp : (pose env).ok = true
      · simp [hf, hp]
      · simp [hf, hp]
    · simp [hf]

/-- C4, at a concrete input: a `K.txt` that opens and holds no number. -/
theorem C4_opened_intrinsic_file_is_accepted_witness :
    (readIntrinsic (demoEnv (some "not a matrix") false true true).S
        "imageData/SceauxCastle/K.txt" (fun _ _ => Double.zero)).ok = true
    ∧ (main (demoEnv (some "not a matrix") false true true)).calls Fn.robustEssential
        = true :=
  ⟨(C4_opened_intrinsic_file_is_accepted (demoEnv (some "not a matrix") false true true)
      (fun _ _ => Double.zero) ⟨"not a matrix".toList, false⟩ rfl).1,
   (C4_opened_intrinsic_file_is_accepted (demoEnv (some "not a matrix") false true true)
      (fun _ _ => Double.zero) ⟨"not a matrix".toList, false⟩ rfl).2.2.1⟩

/-- C4 as stated fails: a `K.txt` that opens and holds the text `not a matrix`
makes the extractions fail, and so does one that holds three numbers only; in
both cases `readIntrinsic` returns true, and `main` goes on to call
`robustEssential` and does not end with `EXIT_FAILURE`. -/
theorem C4_counterexample_malformed_file_accepted :
    (readCoefficients (demoEnv (some "not a matrix") false true true).S
        ⟨"not a matrix".toList, false⟩ (fun _ _ => Double.zero)).2.failbit = true
    ∧ (readIntrinsic (demoEnv (some "not a matrix") false true true).S
        "imageData/SceauxCastle/K.txt" (fun _ _ => Double.zero)).ok = true
    ∧ (readCoefficients (demoEnv (some "1 0 2") false true true).S
        ⟨"1 0 2".toList, false⟩ (fun _ _ => Double.zero)).2.failbit = true
    ∧ (readIntrinsic (demoEnv (some "1 0 2") false true true).S
        "imageData/SceauxCastle/K.txt" (fun _ _ => Double.zero)).ok = true
    ∧ (main (demoEnv (some "not a matrix") false true true)).calls Fn.robustEssential = true
    ∧ (main (demoEnv (some "not a matrix") false true true)).exitCode ≠ EXIT_FAILURE := by
  decide

/-- C3: the code at the failing input.  The intrinsic file is read,
`robustEssential` finds a model and `estimate_Rt_fromE` returns false: `main`
returns `false`, which as an `int` is `0`, the value of `EXIT_SUCCESS`, the very
exit code of the run in which no model is found. -/
theorem C3_pose_failure_exits_with_success_code :
    (readK (demoEnv (some "1 0 2 0 1 3 0 0 1") true false true)).ok = true
    ∧ (essential (demoEnv (some "1 0 2 0 1 3 0 0 1") true false true)).found = true
    ∧ (pose (demoEnv (some "1 0 2 0 1 3 0 0 1") true false true)).ok = false
    ∧ (main (demoEnv (some "1 0 2 0 1 3 0 0 1") true false true)).exitCode = EXIT_SUCCESS
    ∧ (main (demoEnv (some "1 0 2 0 1 3 0 0 1") true false true)).exitCode
        = (main (demoEnv (some "1 0 2 0 1 3 0 0 1") false false true)).exitCode := by
  decide

/-- C9: the code at the failing input.  A model is found and the pose
recovered; in one run `exportToPly` returns false, in the other true, and the
two runs print the same messages and end with the same exit code,
`EXIT_SUCCESS`. -/
theorem C9_export_failure_not_reported :
    (main (demoEnv (some "1 0 2 0 1 3 0 0 1") true true false)).plyOk = some false
    ∧ (main (demoEnv (some "1 0 2 0 1 3 0 0 1") true true true)).plyOk = some true
    ∧ (main (demoEnv (some "1 0 2 0 1 3 0 0 1") true true false)).messages
        = (main (demoEnv (some "1 0 2 0 1 3 0 0 1") true true true)).messages
    ∧ (main (demoEnv (some "1 0 2 0 1 3 0 0 1") true true false)).exitCode = EXIT_SUCCESS
    ∧ (main (demoEnv (some "1 0 2 0 1 3 0 0 1") true true true)).exitCode = EXIT_SUCCESS :=
  ⟨by decide, by decide, rfl, by decide, by decide⟩

end RobustEssential
